import Mathlib

/-!
Shallow embedding of the REAL_STATE_QA query-translation pipeline.

The definitions below are translated from the repository's Python sources:

* `src/resq/ddbb/database.py` — class `MySQL_database` with methods `query`,
  `create_tables_context`, `execute_sql_query`,
  `generate_province_district_hood_relation`, `get_database_ctx`;
* `src/scripts/app.py` — functions `get_tables_context`,
  `natural_language_to_sql`, `execute_sql_query`;
* `src/resq/app/functional.py` — function `process_chat`.

Conventions of the embedding:

* A Python value that may be `None` is an `Option`.
* A computation that may raise an uncaught Python exception is an
  `Except String α`: `Except.error msg` is a raised exception, `Except.ok`
  a normal return.  A `try/except` block is embedded by `pyTry`.
* The database driver and the Python runtime details that the code observes
  (results of `Session().execute`, and the iteration order of a Python
  `set`, which is implementation-defined hash order) are collected in an
  environment record `Env` supplied as an explicit argument.
* The dict `database_ctx` is modelled by its `"user"` entry, the only key
  the source ever reads or writes (`database_ctx["user"]`).
* Logging calls have no observable effect on the modelled state and are
  omitted.
-/

namespace RealStateQA

/-- A fetched row, as returned by `result.fetchall()`. -/
abbrev Row := List String

/-- The pair `(result.fetchall(), result.keys())` returned by the executors. -/
abbrev QueryResult := List Row × List String

/-- Reflected schema metadata: for each table, in the database's natural
enumeration order (`metadata.tables.keys()`), its name and its columns as
`(column.name, str(column.type))` in declaration order. -/
abbrev Metadata := List (String × List (String × String))

/-- Environment: the behaviour of the external collaborators that the
embedded code calls into.  `exec` is `Session().execute(text(sql))` followed
by `fetchall()/keys()` (`Except.error` when the driver raises);
`distinctRows` is the result of the fixed `SELECT DISTINCT PROVINCIA,
NOMDIS, NOMBRE ... ORDER BY ...` query issued by
`generate_province_district_hood_relation`; `setOrder` is the iteration
order of a Python `set` built from a list of strings — implementation
defined (hash order), so it is a parameter, not a fixed function. -/
structure Env where
  exec : String → Except String QueryResult
  distinctRows : Except String (List (String × String × String))
  setOrder : List String → List String

/-- State of a `MySQL_database` pydantic object (src/resq/ddbb/database.py).
`Session` is `some ()` when a sessionmaker is bound, `none` when the field
still holds its default `None`.  `database_ctx_user` is the `"user"` entry
of the `database_ctx` dict (`none` when the key is absent). -/
structure MySQL_database where
  Session : Option Unit
  metadata : Option Metadata
  host : String
  port : String
  ddbb_schema : String
  tables : Option (List String)
  user : String
  password : String
  database_ctx_user : Option String
deriving DecidableEq

/-- Embedding of a Python `try/except Exception` block: run the body; if it
raises, run the handler on the exception. -/
def pyTry {α : Type} (body : Except String α) (handler : String → Except String α) :
    Except String α :=
  match body with
  | Except.ok a => Except.ok a
  | Except.error e => handler e

/-- Body of `MySQL_database.execute_sql_query` before its `except` clause:
`self.Session()` raises a `TypeError` when `Session` is `None`, otherwise the
driver executes the SQL (`env.exec`). -/
def execute_sql_query_attempt (db : MySQL_database) (env : Env) (sql : String) :
    Except String QueryResult :=
  match db.Session with
  | none => Except.error "TypeError: NoneType object is not callable"
  | some _ => env.exec sql

/-- `MySQL_database.execute_sql_query` (database.py lines 177-203): execute
the SQL in a `try`; on any exception log it and return `[], []`. -/
def execute_sql_query (db : MySQL_database) (env : Env) (sql : String) :
    Except String QueryResult :=
  pyTry (execute_sql_query_attempt db env sql) (fun _ => Except.ok ([], []))

/-- The module-level `execute_sql_query` of src/scripts/app.py (lines
143-149): same try/except around `session.execute`, on the script's global
session (always established at import time). -/
def script_execute_sql_query (env : Env) (sql : String) : Except String QueryResult :=
  pyTry (env.exec sql) (fun _ => Except.ok ([], []))

/-- `MySQL_database.query` (database.py lines 75-104): inside a `try`, raise
`Exception("Database has not connected properly")` when `Session` or
`metadata` is `None`, otherwise delegate to `execute_sql_query`; the
function's own `except` catches any exception, logs it and returns `[], []`. -/
def query (db : MySQL_database) (env : Env) (sql : String) : Except String QueryResult :=
  pyTry
    (if db.Session = none ∨ db.metadata = none then
      Except.error "Database has not connected properly"
    else
      execute_sql_query db env sql)
    (fun _ => Except.ok ([], []))

/-- The column rendering shared by both context builders:
`f"{column.name} ({str(column.type)})"` for each column in declaration
order. -/
def columnStrings (cols : List (String × String)) : List String :=
  cols.map (fun c => c.1 ++ " (" ++ c.2 ++ ")")

/-- The selection loop of both context builders: walk
`metadata.tables.keys()` in order, keep the tables whose name is in the
allow-list, and pair each kept name with its rendered column list (the
`tables_lst` entries `{"nombre": ..., "columnas": [...]}`). -/
def selectTables (md : Metadata) (tables : List String) : List (String × List String) :=
  (md.filter (fun t => tables.contains t.1)).map (fun t => (t.1, columnStrings t.2))

/-- A value stored in a `tables_lst` dict entry: the table name (a `str`)
or the rendered column list (a `list`), matching the `isinstance` dispatch
of the rendering loop. -/
inductive CtxVal
  | str (s : String)
  | list (l : List String)

/-- Rendering of one dict entry in the context loop: `tables_ctx +=
f"{key}:"`, then each list item followed by a newline, or the string value
followed by a newline. -/
def renderEntry (kv : String × CtxVal) : String :=
  kv.1 ++ ":" ++
    (match kv.2 with
     | CtxVal.list l => String.join (l.map (fun item => item ++ "\n"))
     | CtxVal.str s => s ++ "\n")

/-- The per-table dict `{"nombre": table_name, "columnas": columns}`, whose
`items()` are iterated in insertion order. -/
def tableDict (name : String) (cols : List String) : List (String × CtxVal) :=
  [("nombre", CtxVal.str name), ("columnas", CtxVal.list cols)]

/-- The accumulation loop over `enumerate(tables_lst)` that builds the
context string: for each index `i` append `f"Tabla {i}:\n"` and then the
rendered dict entries.  The Python `+=` accumulation is embedded as the
join of the per-iteration pieces. -/
def renderTablesLoop (lst : List (String × List String)) : String :=
  String.join (lst.enum.map (fun p =>
    "Tabla " ++ toString p.1 ++ ":\n"
      ++ String.join ((tableDict p.2.1 p.2.2).map renderEntry)))

/-- `get_tables_context` of src/scripts/app.py (lines 49-75): when the
`selected_tables` list is falsy (empty) it is replaced by all table names,
then the shared selection and rendering loops run. -/
def get_tables_context (md : Metadata) (selected_tables : List String) : String :=
  let sel := if selected_tables.isEmpty then md.map Prod.fst else selected_tables
  renderTablesLoop (selectTables md sel)

/-- `MySQL_database.create_tables_context` (database.py lines 106-148):
inside a `try`, when `self.tables is None` it is assigned
`self.metadata.tables.keys()`; the selection and rendering loops build
`tables_ctx`; then `tables_ctx` is appended to `database_ctx["user"]` (the
entry is created when absent).  When `metadata` is `None` the body raises an
`AttributeError` before any assignment and the `except` clause leaves the
state unchanged. -/
def create_tables_context (db : MySQL_database) : MySQL_database :=
  match db.metadata with
  | none => db
  | some md =>
    let tbls :=
      match db.tables with
      | none => md.map Prod.fst
      | some ts => ts
    let tablesCtx := renderTablesLoop (selectTables md tbls)
    { db with
      tables := some tbls
      database_ctx_user := some ((db.database_ctx_user.getD "") ++ tablesCtx) }

/-- The `neighborhood_ctx` string built by
`generate_province_district_hood_relation`: the fetched rows' first column
goes through `set(...)` and `", ".join(...)` for the province sentence, the
second column likewise for the district sentence (note the leading space of
the second sentence, as in the source).  Set iteration order is the
environment's `setOrder`. -/
def neighborhoodCtx (env : Env) (rows : List (String × String × String)) : String :=
  "Los valores posibles de la columna provincia son : "
    ++ String.intercalate ", " (env.setOrder (rows.map (fun r => r.1))) ++ "\n"
    ++ " Los valores posibles de la columna distrito son : "
    ++ String.intercalate ", " (env.setOrder (rows.map (fun r => r.2.1))) ++ "\n"

/-- `MySQL_database.generate_province_district_hood_relation` (database.py
lines 205-249): inside a `try`, `self.Session()` raises when `Session` is
`None`; otherwise the fixed DISTINCT query runs (`env.distinctRows`); on
success the `neighborhood_ctx` string is appended to
`database_ctx["user"]` (created when absent); any exception is caught and
leaves the state unchanged. -/
def generate_province_district_hood_relation (db : MySQL_database) (env : Env) :
    MySQL_database :=
  match db.Session with
  | none => db
  | some _ =>
    match env.distinctRows with
    | Except.error _ => db
    | Except.ok rows =>
      { db with
        database_ctx_user :=
          some ((db.database_ctx_user.getD "") ++ neighborhoodCtx env rows) }

/-- `MySQL_database.get_database_ctx` (database.py lines 251-264): run
`create_tables_context` then `generate_province_district_hood_relation`
(both total, so its own `try/except` never fires). -/
def get_database_ctx (db : MySQL_database) (env : Env) : MySQL_database :=
  generate_province_district_hood_relation (create_tables_context db) env

/-- Shape of the model's raw chat-completion content as seen by
`natural_language_to_sql`, after `.replace("\n", " ")`: it fails to parse
as JSON, parses to a non-dict JSON value, or parses to a JSON object whose
string fields are listed. -/
inductive ModelOutput
  | invalidJson
  | jsonNonObject
  | jsonObject (fields : List (String × String))

/-- A Python value that the variable `resposnse_json` of
`natural_language_to_sql` can hold: a dict, the one-element tuple produced
by the `except` branch (whose assignment `resposnse_json = {"sql_query":
"Error"},` ends in a comma), or a non-dict JSON value. -/
inductive PyValue
  | dict (fields : List (String × String))
  | tuple1dict (fields : List (String × String))
  | nonDict

/-- The value of `resposnse_json` after the `try/except` of
`natural_language_to_sql` (src/scripts/app.py lines 137-140): a successful
`json.loads` yields the parsed value; a failed one runs the `except` branch,
whose trailing comma makes the assigned value a one-element tuple containing
the dict `{"sql_query": "Error"}`. -/
def nl2sql_responseJson (out : ModelOutput) : PyValue :=
  match out with
  | ModelOutput.invalidJson => PyValue.tuple1dict [("sql_query", "Error")]
  | ModelOutput.jsonNonObject => PyValue.nonDict
  | ModelOutput.jsonObject fields => PyValue.dict fields

/-- Python subscript `value[key]` with a string key: a dict lookup returns
the value or raises `KeyError`; subscripting a tuple (or any non-dict JSON
value) with a string raises `TypeError`. -/
def pySubscriptStr (v : PyValue) (key : String) : Except String String :=
  match v with
  | PyValue.dict fields =>
    match fields.lookup key with
    | some s => Except.ok s
    | none => Except.error ("KeyError: " ++ key)
  | PyValue.tuple1dict _ => Except.error "TypeError: tuple indices must be integers"
  | PyValue.nonDict => Except.error "TypeError: string subscript on a non-dict value"

/-- `natural_language_to_sql` (src/scripts/app.py lines 78-141), reduced to
its result handling: the prompt construction and model call always produce
some raw content (`out`); the `try/except` computes `resposnse_json`; the
final `return resposnse_json["sql_query"]` is a subscript OUTSIDE the `try`,
so any exception it raises propagates to the caller. -/
def natural_language_to_sql (out : ModelOutput) : Except String String :=
  pySubscriptStr (nl2sql_responseJson out) "sql_query"

/-- Handle of the `llm_model` object used by `process_chat`.  Modelled from
the spec: the file `resq/llm/model.py` is not part of the sources given;
per the spec (QueryTranslator, §4.3 and §6) `infer` takes the user question
and returns either the extracted SQL string or the sentinel error value —
represented as data, never raised — so it is a total function. -/
structure LlmModel where
  database_context : Option String
  infer : String → String

/-- Environment for `process_chat`: the results of loading the two
configuration files and constructing the collaborators.  `ddbb_config` is
`get_ddbb_config` plus `MySQL_database(**...)`; `connect` is
`connect_to_database` (which either raises or installs `Session` and
`metadata`); `model_config` is `get_model_config` plus `llm_model(**...)`
and `_initialize_model`. -/
structure ProcEnv where
  ddbb_config : Except String MySQL_database
  connect : MySQL_database → Except String MySQL_database
  model_config : Except String LlmModel

/-- Observable initialization side effects of one `process_chat` call. -/
inductive InitEffect
  | connectedDatabase
  | builtDatabaseContext
  | constructedModel
deriving DecidableEq

/-- Attribute lookup for `pandas_query` on `MySQL_database`: the class in
src/resq/ddbb/database.py defines no method or field of that name, so the
attribute is absent and the access `database.pandas_query` raises
`AttributeError`. -/
def MySQL_database_pandas_query :
    Option (MySQL_database → Env → String → QueryResult) :=
  none

/-- The two final statements of the `try` body of `process_chat`:
`query = model.infer(user_input)` and `response =
database.pandas_query(query)`, followed by the `return` of the four-tuple.
The attribute lookup `database.pandas_query` consults
`MySQL_database_pandas_query`; since it is absent, an `AttributeError` is
raised, which the `except` clause of `process_chat` logs and re-raises. -/
def process_chat_infer (env : Env) (m : LlmModel) (d : MySQL_database)
    (user_input : String) (effects : List InitEffect) :
    List InitEffect ×
      Except String (QueryResult × String × LlmModel × MySQL_database) :=
  let sqlq := m.infer user_input
  match MySQL_database_pandas_query with
  | none =>
    (effects,
     Except.error "AttributeError: MySQL_database object has no attribute pandas_query")
  | some f => (effects, Except.ok (f d env sqlq, sqlq, m, d))

/-- Translation and execution part of `process_chat` (after the database
initialization branch): construct the model handle if absent (binding the
database context, `model.database_context = database.database_ctx`), then
run the translation and execution statements. -/
def process_chat_rest (pe : ProcEnv) (env : Env) (modelOpt : Option LlmModel)
    (d : MySQL_database) (user_input : String) (effects : List InitEffect) :
    List InitEffect ×
      Except String (QueryResult × String × LlmModel × MySQL_database) :=
  match modelOpt with
  | none =>
    match pe.model_config with
    | Except.error e => (effects, Except.error e)
    | Except.ok m0 =>
      process_chat_infer env
        { m0 with database_context := d.database_ctx_user } d user_input
        (effects ++ [InitEffect.constructedModel])
  | some m => process_chat_infer env m d user_input effects

/-- `process_chat` (src/resq/app/functional.py lines 113-167): when the
database handle is `None`, load its configuration, construct and connect a
`MySQL_database` and build its context; when the model handle is `None`,
construct it and bind the context; then translate and execute.  The final
`except` clause logs the error and re-raises, so failures propagate.  The
returned list records which initialization effects took place. -/
def process_chat (pe : ProcEnv) (env : Env) (modelOpt : Option LlmModel)
    (databaseOpt : Option MySQL_database) (user_input : String) :
    List InitEffect ×
      Except String (QueryResult × String × LlmModel × MySQL_database) :=
  match databaseOpt with
  | none =>
    match pe.ddbb_config with
    | Except.error e => ([], Except.error e)
    | Except.ok d0 =>
      match pe.connect d0 with
      | Except.error e => ([], Except.error e)
      | Except.ok d1 =>
        process_chat_rest pe env modelOpt (get_database_ctx d1 env) user_input
          [InitEffect.connectedDatabase, InitEffect.builtDatabaseContext]
  | some d => process_chat_rest pe env modelOpt d user_input []

/-- Claim-side rendering of one column, following the spec's words: each
column is rendered as `name (type)`. -/
def specColumnEntry (c : String × String) : String :=
  c.1 ++ " (" ++ c.2 ++ ")"

/-- Claim-side rendering of one table block, following the spec's words: a
block naming the table and, for each column in declaration order, its
`name (type)` entry. -/
def specTableBlock (i : Nat) (name : String) (cols : List (String × String)) : String :=
  "Tabla " ++ toString i ++ ":\n" ++ "nombre:" ++ name ++ "\n"
    ++ "columnas:" ++ String.join (cols.map (fun c => specColumnEntry c ++ "\n"))

/-- Claim-side context: one block per selected table, in schema order. -/
def specContext (tabs : Metadata) : String :=
  String.join (tabs.enum.map (fun p => specTableBlock p.1 p.2.1 p.2.2))

/-- A `MySQL_database` object still in its default unconnected state
(`Session` and `metadata` hold their default `None`). -/
def c2db : MySQL_database :=
  { Session := none
    metadata := none
    host := "192.168.1.94"
    port := "3306"
    ddbb_schema := "home_data_extraction"
    tables := some ["home_data_extraction.home_processed_extraction"]
    user := "jorge"
    password := "pw"
    database_ctx_user := none }

/-- An environment whose driver would answer any SQL with an empty result. -/
def c2env : Env :=
  { exec := fun _ => Except.ok ([], [])
    distinctRows := Except.ok []
    setOrder := fun l => l }

/-- A connected database handle for the `process_chat` turn of C3. -/
def c3db : MySQL_database :=
  { Session := some ()
    metadata := some [("home_data_extraction.home_processed_extraction",
      [("precio", "INTEGER"), ("provincia", "TEXT")])]
    host := "192.168.1.94"
    port := "3306"
    ddbb_schema := "home_data_extraction"
    tables := some ["home_data_extraction.home_processed_extraction"]
    user := "jorge"
    password := "pw"
    database_ctx_user := some "Tabla 0:\nnombre:t\ncolumnas:a (INT)\n" }

/-- A model handle whose translation always succeeds with a fixed query. -/
def c3model : LlmModel :=
  { database_context := some "ctx"
    infer := fun _ =>
      "SELECT COUNT(*) AS total FROM home_data_extraction.home_processed_extraction" }

/-- A `process_chat` environment for an already-initialized session: the
configuration loaders are never consulted on this path. -/
def c3pe : ProcEnv :=
  { ddbb_config := Except.error "not loaded on this path"
    connect := fun d => Except.ok d
    model_config := Except.error "not loaded on this path" }

/-- Driver environment for the C3 turn. -/
def c3env : Env :=
  { exec := fun _ => Except.ok ([["42"]], ["total"])
    distinctRows := Except.ok []
    setOrder := fun l => l }

/-- A connected database handle used to exercise the executor. -/
def c4db : MySQL_database :=
  { Session := some ()
    metadata := some [("t", [("a", "INT")])]
    host := "h"
    port := "p"
    ddbb_schema := "s"
    tables := some ["t"]
    user := "u"
    password := "pw"
    database_ctx_user := none }

/-- An environment whose driver rejects every statement, as for a syntax
error or a missing table. -/
def c4env : Env :=
  { exec := fun _ => Except.error "ProgrammingError: You have an error in your SQL syntax"
    distinctRows := Except.error "ProgrammingError"
    setOrder := fun l => l }

/-- A connected database with one reflected table and an explicit allow-list,
before any context has been generated. -/
def c5db : MySQL_database :=
  { Session := some ()
    metadata := some [("t", [("a", "INT")])]
    host := "h"
    port := "p"
    ddbb_schema := "s"
    tables := some ["t"]
    user := "u"
    password := "pw"
    database_ctx_user := none }

/-- Database handle for the C6 turn (already Ready). -/
def c6db : MySQL_database :=
  { Session := some ()
    metadata := some [("t", [("a", "INT")])]
    host := "h"
    port := "p"
    ddbb_schema := "s"
    tables := some ["t"]
    user := "u"
    password := "pw"
    database_ctx_user := some "ctx" }

/-- Model handle for the C6 turn (already Ready). -/
def c6model : LlmModel :=
  { database_context := some "ctx"
    infer := fun q => q }

/-- A `process_chat` environment that would reconnect and rebuild handles if
the initialization branches ran; on an already-Ready session they must not. -/
def c6pe : ProcEnv :=
  { ddbb_config := Except.ok c6db
    connect := fun d => Except.ok d
    model_config := Except.ok c6model }

/-- Driver environment for the C6 turn. -/
def c6env : Env :=
  { exec := fun _ => Except.ok ([], [])
    distinctRows := Except.ok []
    setOrder := fun l => l }

/-- Two reflected tables, for the allow-list default of C7. -/
def c7metadata : Metadata :=
  [("t1", [("a", "INTEGER")]), ("t2", [("b", "TEXT")])]

/-- A database whose configured allow-list is the empty list. -/
def c7db : MySQL_database :=
  { Session := some ()
    metadata := some c7metadata
    host := "h"
    port := "p"
    ddbb_schema := "s"
    tables := some []
    user := "u"
    password := "pw"
    database_ctx_user := none }

/-- The same database with `tables` holding `None` instead of the empty
list: the only case in which `create_tables_context` defaults to all
tables. -/
def c7dbNone : MySQL_database :=
  { Session := some ()
    metadata := some c7metadata
    host := "h"
    port := "p"
    ddbb_schema := "s"
    tables := none
    user := "u"
    password := "pw"
    database_ctx_user := none }

/-- The distinct `(PROVINCIA, NOMDIS, NOMBRE)` rows returned by the
database, already in its `ORDER BY PROVINCIA, NOMDIS, NOMBRE` order. -/
def c8rows : List (String × String × String) :=
  [("Barcelona", "Ciutat Vella", "Gotic"), ("Madrid", "Centro", "Sol")]

/-- An environment in which the Python sets happen to iterate in reverse
insertion order — a legitimate behaviour, since set iteration order is
implementation-defined hash order and no order is guaranteed. -/
def c8env : Env :=
  { exec := fun _ => Except.ok ([], [])
    distinctRows := Except.ok c8rows
    setOrder := fun l => l.reverse }

/-- An environment whose set iteration enumerates each distinct element
exactly once (it agrees with `List.dedup`). -/
def c8envGood : Env :=
  { exec := fun _ => Except.ok ([], [])
    distinctRows := Except.ok c8rows
    setOrder := fun l => l.dedup }

/-- A connected database handle for the C8 context generation. -/
def c8db : MySQL_database :=
  { Session := some ()
    metadata := some []
    host := "h"
    port := "p"
    ddbb_schema := "s"
    tables := some []
    user := "u"
    password := "pw"
    database_ctx_user := none }

/-- A connected database handle for the C10 accumulation. -/
def c10db : MySQL_database :=
  { Session := some ()
    metadata := some [("t", [("a", "INT")])]
    host := "h"
    port := "p"
    ddbb_schema := "s"
    tables := some ["t"]
    user := "u"
    password := "pw"
    database_ctx_user := none }

/-- Driver environment for the C10 accumulation. -/
def c10env : Env :=
  { exec := fun _ => Except.ok ([], [])
    distinctRows := Except.ok [("Madrid", "Centro", "Sol")]
    setOrder := fun l => l }

/-- Folding string concatenation over a list distributes over the initial
accumulator. -/
theorem sfoldl_shift (l : List String) : ∀ acc₁ acc₂ : String,
    List.foldl (fun a b => a ++ b) (acc₁ ++ acc₂) l =
      acc₁ ++ List.foldl (fun a b => a ++ b) acc₂ l := by
  induction l with
  | nil => intro a1 a2; rfl
  | cons b bs ih =>
    intro a1 a2
    simp only [List.foldl_cons]
    rw [String.append_assoc]
    exact ih a1 (a2 ++ b)

/-- Folding concatenation from any accumulator prepends it to the join. -/
theorem sfoldl_eq (l : List String) (acc : String) :
    List.foldl (fun a b => a ++ b) acc l = acc ++ String.join l := by
  have h := sfoldl_shift l acc ""
  rw [String.append_empty] at h
  exact h

/-- String.join distributes over cons. -/
theorem sjoin_cons (a : String) (l : List String) :
    String.join (a :: l) = a ++ String.join l := by
  show List.foldl (fun a b => a ++ b) "" (a :: l) = a ++ String.join l
  simp only [List.foldl_cons]
  exact sfoldl_eq l ("" ++ a)

/-- String.join of a singleton list is its element. -/
theorem sjoin_singleton (a : String) : String.join [a] = a := by
  rw [sjoin_cons]
  exact String.append_empty a

/-- String.join of the empty list is the empty string. -/
theorem sjoin_nil : String.join ([] : List String) = "" := rfl

/-- String.join distributes over list append. -/
theorem sjoin_append (l1 l2 : List String) :
    String.join (l1 ++ l2) = String.join l1 ++ String.join l2 := by
  show List.foldl (fun a b => a ++ b) "" (l1 ++ l2) = _
  rw [List.foldl_append]
  exact sfoldl_eq l2 (String.join l1)

/-- The source rendering of one table block — the `Tabla {i}` header
followed by the dict-entry loop — equals the claim-side block. -/
theorem render_block_eq (i : Nat) (n : String) (cols : List (String × String)) :
    "Tabla " ++ toString i ++ ":\n"
        ++ String.join ((tableDict n (columnStrings cols)).map renderEntry)
      = specTableBlock i n cols := by
  simp only [tableDict, List.map_cons, List.map_nil, renderEntry, specTableBlock,
    columnStrings, List.map_map, sjoin_cons, sjoin_singleton, sjoin_nil,
    String.append_empty, specColumnEntry, Function.comp_def, String.append_assoc]
  rfl

/-- Unfolding of `create_tables_context` on a state whose `metadata` and
`tables` are both set: the generated string is appended to the context and
nothing else changes. -/
theorem create_tables_context_spec (db : MySQL_database) (md : Metadata)
    (ts : List String) (h1 : db.metadata = some md) (h2 : db.tables = some ts) :
    create_tables_context db =
      { db with
          database_ctx_user := some
            ((db.database_ctx_user.getD "") ++ renderTablesLoop (selectTables md ts)) } := by
  obtain ⟨S, M, ho, po, sc, tb, us, pw, dc⟩ := db
  have h1x : M = some md := h1
  have h2x : tb = some ts := h2
  subst h1x
  subst h2x
  rfl

/-- Unfolding of `create_tables_context` when `tables` holds `None`: the
field is set to all reflected table names and the all-tables context is
appended. -/
theorem create_tables_context_spec_none (db : MySQL_database) (md : Metadata)
    (h1 : db.metadata = some md) (h2 : db.tables = none) :
    create_tables_context db =
      { db with
          tables := some (md.map Prod.fst)
          database_ctx_user := some
            ((db.database_ctx_user.getD "")
              ++ renderTablesLoop (selectTables md (md.map Prod.fst))) } := by
  obtain ⟨S, M, ho, po, sc, tb, us, pw, dc⟩ := db
  have h1x : M = some md := h1
  have h2x : tb = none := h2
  subst h1x
  subst h2x
  rfl

/-- Unfolding of `generate_province_district_hood_relation` on a connected
state whose DISTINCT query succeeds: the neighborhood context is appended
and nothing else changes. -/
theorem generate_spec (db : MySQL_database) (env : Env)
    (rows : List (String × String × String))
    (h1 : db.Session = some ()) (h2 : env.distinctRows = Except.ok rows) :
    generate_province_district_hood_relation db env =
      { db with
          database_ctx_user := some
            ((db.database_ctx_user.getD "") ++ neighborhoodCtx env rows) } := by
  obtain ⟨S, M, ho, po, sc, tb, us, pw, dc⟩ := db
  obtain ⟨ex, dr, so⟩ := env
  have h1x : S = some () := h1
  have h2x : dr = Except.ok rows := h2
  subst h1x
  subst h2x
  rfl

/-- C1: the claim says that for every model response whose raw output is
not valid structured data or omits `sql_query`, `natural_language_to_sql`
returns the sentinel value `"Error"` in the `sql_query` field and never
raises.  The code instead raises on both malformed shapes: the `except`
branch assignment ends in a comma, binding a one-element tuple, so the
subsequent `["sql_query"]` subscript raises `TypeError`; and a parsed
object without the field raises `KeyError` (its subscript is outside the
`try`).  A well-formed response still flows through as data. -/
theorem c1_translate_malformed_raises :
    natural_language_to_sql ModelOutput.invalidJson =
        Except.error "TypeError: tuple indices must be integers" ∧
    natural_language_to_sql (ModelOutput.jsonObject [("query", "SELECT 1")]) =
        Except.error "KeyError: sql_query" ∧
    natural_language_to_sql (ModelOutput.jsonObject [("sql_query", "SELECT 1")]) =
        Except.ok "SELECT 1" := by
  refine ⟨rfl, ?_, ?_⟩ <;> rfl

/-- C2 counterexample: calling `query` on a `MySQL_database` whose
`Session` and `metadata` are still `None` does not raise to the caller —
the internal exception is caught by the function's own `except` clause and
the call returns the silent empty result `([], [])`. -/
theorem c2_query_counterexample :
    query c2db c2env "SELECT 1" = Except.ok ([], []) := rfl

/-- C2 amended: for every call to `query` while `Session` or `metadata` is
`None`, the internally raised exception is caught by the method's own
`except` clause, the error is logged, and the empty result `([], [])` is
returned to the caller; no exception propagates. -/
theorem c2_query_amended (db : MySQL_database) (env : Env) (sql : String)
    (h : db.Session = none ∨ db.metadata = none) :
    query db env sql = Except.ok ([], []) := by
  unfold query
  rw [if_pos h]
  rfl

/-- Witness for the amended C2 at a concrete unconnected state. -/
theorem c2_query_amended_witness :
    query c2db c2env "SHOW TABLES" = Except.ok ([], []) :=
  c2_query_amended c2db c2env "SHOW TABLES" (Or.inl rfl)

/-- C3: the claim says a turn on an initialized session always completes
with a well-formed tabular result.  In the code, `process_chat` calls
`database.pandas_query(query)`, an attribute `MySQL_database` does not
define, so every turn raises `AttributeError`, which the `except` clause
logs and re-raises to the caller. -/
theorem c3_turn_always_raises :
    process_chat c3pe c3env (some c3model) (some c3db) "count houses in Madrid" =
      ([], Except.error
        "AttributeError: MySQL_database object has no attribute pandas_query") := rfl

/-- C4: for every SQL string and driver behaviour, `execute_sql_query`
returns `Except.ok` (never raises), and whenever the attempted execution
fails — driver error or unbound session — it returns the empty result
`([], [])`; the script-level `execute_sql_query` of src/scripts/app.py
behaves the same way. -/
theorem c4_execute_swallows (db : MySQL_database) (env : Env) (sql : String) :
    (∃ r, execute_sql_query db env sql = Except.ok r) ∧
    (∀ e, execute_sql_query_attempt db env sql = Except.error e →
      execute_sql_query db env sql = Except.ok ([], [])) ∧
    (∃ r, script_execute_sql_query env sql = Except.ok r) ∧
    (∀ e, env.exec sql = Except.error e →
      script_execute_sql_query env sql = Except.ok ([], [])) := by
  refine ⟨?_, ?_, ?_, ?_⟩
  · unfold execute_sql_query pyTry
    cases h : execute_sql_query_attempt db env sql with
    | ok r => exact ⟨r, rfl⟩
    | error e => exact ⟨([], []), rfl⟩
  · intro e he
    unfold execute_sql_query pyTry
    rw [he]
  · unfold script_execute_sql_query pyTry
    cases h : env.exec sql with
    | ok r => exact ⟨r, rfl⟩
    | error e => exact ⟨([], []), rfl⟩
  · intro e he
    unfold script_execute_sql_query pyTry
    rw [he]

/-- Witness for C4: a concrete driver failure yields the empty result from
both executors. -/
theorem c4_execute_swallows_witness :
    execute_sql_query c4db c4env "SELEC * FROM home" = Except.ok ([], []) ∧
    script_execute_sql_query c4env "SELEC * FROM home" = Except.ok ([], []) :=
  ⟨(c4_execute_swallows c4db c4env "SELEC * FROM home").2.1
      "ProgrammingError: You have an error in your SQL syntax" rfl,
   (c4_execute_swallows c4db c4env "SELEC * FROM home").2.2.2
      "ProgrammingError: You have an error in your SQL syntax" rfl⟩

/-- C5 counterexample: `create_tables_context` is not side-effect-free — a
single call on a concrete connected state changes the state (the generated
text is appended to `database_ctx["user"]`). -/
theorem c5_synthesize_counterexample : create_tables_context c5db ≠ c5db := by
  decide

/-- C5 amended: the text generated by `create_tables_context` is
deterministic — a pure function of `metadata` and `tables` — but the
method is not side-effect-free: each call appends that text to
`database_ctx["user"]` (creating the entry when absent), leaving every
other field unchanged; calling it twice therefore accumulates two copies
instead of reproducing a byte-identical context. -/
theorem c5_synthesize_amended (db : MySQL_database) (md : Metadata)
    (ts : List String) (h1 : db.metadata = some md) (h2 : db.tables = some ts) :
    create_tables_context db =
      { db with
          database_ctx_user := some
            ((db.database_ctx_user.getD "") ++ renderTablesLoop (selectTables md ts)) } :=
  create_tables_context_spec db md ts h1 h2

/-- Witness for the amended C5 at a concrete connected state. -/
theorem c5_synthesize_amended_witness :
    create_tables_context c5db =
      { c5db with
          database_ctx_user := some
            ((c5db.database_ctx_user.getD "")
              ++ renderTablesLoop (selectTables [("t", [("a", "INT")])] ["t"])) } :=
  c5_synthesize_amended c5db [("t", [("a", "INT")])] ["t"] rfl rfl

/-- C6: the claim says a turn on an already-Ready session performs no
re-initialization and returns the same handles.  The first half holds —
no initialization effect is recorded — but the turn never returns the
handles: it raises `AttributeError` on the nonexistent
`database.pandas_query` before reaching its `return` statement. -/
theorem c6_ready_session_no_reinit_but_raises :
    (process_chat c6pe c6env (some c6model) (some c6db) "hola").1 = [] ∧
    (process_chat c6pe c6env (some c6model) (some c6db) "hola").2 =
      Except.error
        "AttributeError: MySQL_database object has no attribute pandas_query" :=
  ⟨rfl, rfl⟩

/-- Selecting against an empty allow-list keeps no table. -/
theorem selectTables_nil (md : Metadata) : selectTables md [] = [] := by
  simp [selectTables]

/-- C7 counterexample: with the empty allow-list `tables = []`, the context
generated by `create_tables_context` is empty — it does not default to all
reflected tables (here two tables are reflected, and the all-tables context
is nonempty). -/
theorem c7_empty_allowlist_counterexample :
    (create_tables_context c7db).database_ctx_user = some "" ∧
    renderTablesLoop (selectTables c7metadata (c7metadata.map Prod.fst)) ≠ "" :=
  ⟨rfl, by decide⟩

/-- C7 amended: the script-level `get_tables_context` does default to all
reflected tables when its selected-tables list is empty (the falsy check
`if not selected_tables`), but `create_tables_context` defaults to all
tables only when its `tables` field holds `None`; with an empty allow-list
it selects no tables and appends the empty context. -/
theorem c7_empty_allowlist_amended (md : Metadata) (db : MySQL_database) :
    get_tables_context md [] = renderTablesLoop (selectTables md (md.map Prod.fst)) ∧
    (db.metadata = some md → db.tables = none →
      (create_tables_context db).database_ctx_user =
        some ((db.database_ctx_user.getD "")
          ++ renderTablesLoop (selectTables md (md.map Prod.fst)))) ∧
    (db.metadata = some md → db.tables = some [] →
      (create_tables_context db).database_ctx_user =
        some (db.database_ctx_user.getD "")) := by
  refine ⟨rfl, ?_, ?_⟩
  · intro h1 h2
    rw [create_tables_context_spec_none db md h1 h2]
  · intro h1 h2
    rw [create_tables_context_spec db md [] h1 h2, selectTables_nil]
    show some ((db.database_ctx_user.getD "") ++ "") = some (db.database_ctx_user.getD "")
    rw [String.append_empty]

/-- Witness for the amended C7 at concrete states: a `None` allow-list
yields the all-tables context, an empty allow-list yields no tables. -/
theorem c7_empty_allowlist_amended_witness :
    get_tables_context c7metadata [] =
      renderTablesLoop (selectTables c7metadata (c7metadata.map Prod.fst)) ∧
    (create_tables_context c7dbNone).database_ctx_user =
      some ((c7dbNone.database_ctx_user.getD "")
        ++ renderTablesLoop (selectTables c7metadata (c7metadata.map Prod.fst))) ∧
    (create_tables_context c7db).database_ctx_user =
      some (c7db.database_ctx_user.getD "") :=
  ⟨(c7_empty_allowlist_amended c7metadata c7dbNone).1,
   (c7_empty_allowlist_amended c7metadata c7dbNone).2.1 rfl rfl,
   (c7_empty_allowlist_amended c7metadata c7db).2.2 rfl rfl⟩

/-- C8 counterexample: the database returns the distinct rows in `ORDER BY`
order `Barcelona, Madrid`, but the code routes the values through Python
sets, whose iteration order is implementation-defined; in an environment
where the sets iterate in reverse insertion order the emitted sentence
lists `Madrid, Barcelona` — not the database's result order. -/
theorem c8_distinct_order_counterexample :
    (generate_province_district_hood_relation c8db c8env).database_ctx_user =
      some ("Los valores posibles de la columna provincia son : Madrid, Barcelona\n Los valores posibles de la columna distrito son : Centro, Ciutat Vella\n") ∧
    String.intercalate ", " (c8rows.map (fun r => r.1)) = "Barcelona, Madrid" ∧
    ("Madrid, Barcelona" : String) ≠ "Barcelona, Madrid" :=
  ⟨by decide, by decide, by decide⟩

/-- C8 amended: the extra-facts sentences list the values in the iteration
order of the Python sets the code builds (`env.setOrder`), which is
implementation-defined and not guaranteed to be the database's
DISTINCT/ORDER BY result order; when the set enumerates each distinct
element exactly once, the listed provinces are exactly the fetched ones. -/
theorem c8_distinct_order_amended (db : MySQL_database) (env : Env)
    (rows : List (String × String × String))
    (h1 : db.Session = some ()) (h2 : env.distinctRows = Except.ok rows) :
    (generate_province_district_hood_relation db env).database_ctx_user =
      some ((db.database_ctx_user.getD "") ++ neighborhoodCtx env rows) ∧
    ((∀ l : List String, (env.setOrder l).Perm l.dedup) →
      ∀ v : String,
        (v ∈ env.setOrder (rows.map (fun r => r.1)) ↔ v ∈ rows.map (fun r => r.1))) := by
  constructor
  · rw [generate_spec db env rows h1 h2]
  · intro hperm v
    exact (hperm _).mem_iff.trans List.mem_dedup

/-- Witness for the amended C8 at concrete inputs. -/
theorem c8_distinct_order_amended_witness :
    (generate_province_district_hood_relation c8db c8env).database_ctx_user =
      some ((c8db.database_ctx_user.getD "") ++ neighborhoodCtx c8env c8rows) ∧
    (("Madrid" : String) ∈ c8envGood.setOrder (c8rows.map (fun r => r.1)) ↔
      ("Madrid" : String) ∈ c8rows.map (fun r => r.1)) :=
  ⟨(c8_distinct_order_amended c8db c8env c8rows rfl rfl).1,
   (c8_distinct_order_amended c8db c8envGood c8rows rfl rfl).2
     (fun _ => List.Perm.refl _) "Madrid"⟩

/-- The source rendering loop over the selected tables, started at any
index, maps each selected table to its claim-side block. -/
theorem renderTablesLoop_spec (A : Metadata) : ∀ n : Nat,
    List.map
      (fun p => "Tabla " ++ toString p.1 ++ ":\n"
        ++ String.join (List.map renderEntry (tableDict p.2.1 p.2.2)))
      (List.enumFrom n (A.map (fun t => (t.1, columnStrings t.2)))) =
    List.map (fun p => specTableBlock p.1 p.2.1 p.2.2) (List.enumFrom n A) := by
  induction A with
  | nil => intro n; rfl
  | cons t rest ih =>
    intro n
    simp only [List.map_cons, List.enumFrom_cons]
    congr 1
    · exact render_block_eq n t.1 t.2
    · exact ih (n + 1)

/-- C9: for every reflected metadata and allow-list, the generated context
equals one claim-side block per selected table, in schema order: block `i`
names table `i` and lists exactly that table's reflected columns, each
rendered as `name (type)`, in declaration order — so with N tables
reflected and selected the context consists of exactly N such blocks. -/
theorem c9_table_blocks (md : Metadata) (ts : List String) :
    renderTablesLoop (selectTables md ts) =
      specContext (md.filter (fun t => ts.contains t.1)) :=
  congrArg String.join
    (renderTablesLoop_spec (md.filter (fun t => ts.contains t.1)) 0)

/-- One full `get_database_ctx` step on a connected state appends the table
context followed by the neighborhood context. -/
theorem get_database_ctx_step (db : MySQL_database) (env : Env) (md : Metadata)
    (ts : List String) (rows : List (String × String × String))
    (h1 : db.metadata = some md) (h2 : db.tables = some ts)
    (h3 : db.Session = some ()) (h4 : env.distinctRows = Except.ok rows) :
    get_database_ctx db env =
      { db with
          database_ctx_user := some
            ((db.database_ctx_user.getD "")
              ++ (renderTablesLoop (selectTables md ts) ++ neighborhoodCtx env rows)) } := by
  unfold get_database_ctx
  rw [create_tables_context_spec db md ts h1 h2]
  have h3x : ({ db with
      database_ctx_user := some
        ((db.database_ctx_user.getD "") ++ renderTablesLoop (selectTables md ts)) } :
      MySQL_database).Session = some () := h3
  rw [generate_spec _ env rows h3x h4, ← String.append_assoc]
  rfl

/-- C10: on a connected state, `get_database_ctx` appends to the existing
`database_ctx["user"]` string rather than replacing it, so `k` calls leave
the context equal to its initial content followed by `k` accumulated copies
of the generated schema-plus-distinct-values text. -/
theorem c10_context_accumulates (db : MySQL_database) (env : Env) (md : Metadata)
    (ts : List String) (rows : List (String × String × String)) (k : Nat)
    (h1 : db.metadata = some md) (h2 : db.tables = some ts)
    (h3 : db.Session = some ()) (h4 : env.distinctRows = Except.ok rows) :
    ((fun d => get_database_ctx d env)^[k] db).database_ctx_user.getD "" =
      (db.database_ctx_user.getD "")
        ++ String.join (List.replicate k
            (renderTablesLoop (selectTables md ts) ++ neighborhoodCtx env rows)) := by
  have main : ∀ j : Nat,
      ((fun d => get_database_ctx d env)^[j] db).metadata = some md ∧
      ((fun d => get_database_ctx d env)^[j] db).tables = some ts ∧
      ((fun d => get_database_ctx d env)^[j] db).Session = some () ∧
      ((fun d => get_database_ctx d env)^[j] db).database_ctx_user.getD "" =
        (db.database_ctx_user.getD "")
          ++ String.join (List.replicate j
              (renderTablesLoop (selectTables md ts) ++ neighborhoodCtx env rows)) := by
    intro j
    induction j with
    | zero =>
      refine ⟨h1, h2, h3, ?_⟩
      show db.database_ctx_user.getD "" = db.database_ctx_user.getD "" ++ String.join []
      rw [sjoin_nil, String.append_empty]
    | succ n ih =>
      obtain ⟨ihm, iht, ihs, ihc⟩ := ih
      rw [Function.iterate_succ_apply']
      rw [get_database_ctx_step _ env md ts rows ihm iht ihs h4]
      refine ⟨ihm, iht, ihs, ?_⟩
      show ((fun d => get_database_ctx d env)^[n] db).database_ctx_user.getD ""
          ++ (renderTablesLoop (selectTables md ts) ++ neighborhoodCtx env rows) = _
      rw [ihc, List.replicate_succ', sjoin_append, sjoin_singleton, String.append_assoc]
  exact (main k).2.2.2

/-- Witness for C10: two calls on a concrete connected state accumulate two
copies of the generated text. -/
theorem c10_context_accumulates_witness :
    ((fun d => get_database_ctx d c10env)^[2] c10db).database_ctx_user.getD "" =
      (c10db.database_ctx_user.getD "")
        ++ String.join (List.replicate 2
            (renderTablesLoop (selectTables [("t", [("a", "INT")])] ["t"])
              ++ neighborhoodCtx c10env [("Madrid", "Centro", "Sol")])) :=
  c10_context_accumulates c10db c10env [("t", [("a", "INT")])] ["t"]
    [("Madrid", "Centro", "Sol")] 2 rfl rfl rfl rfl

end RealStateQA
